import Mathlib

/-!
Verification of the `MCPConnection` connection manager (an SSE-based
JSON-RPC client).  The class is embedded shallowly: the mutable instance
fields become a `ConnState` record, each event handler registered on the
transport (`onopen`, the `endpoint` listener, the `message` listener,
`onerror`) becomes a pure transition function returning the new state
together with the observable effect (promise resolution / rejection,
scheduled retry), and the network is an oracle supplying POST outcomes.
URL query-parameter handling (`URLSearchParams.set`), JSON
serialization of string maps (`JSON.stringify`) and percent encoding
(`encodeURIComponent`) are implemented concretely so that the
URL-construction claims can be evaluated on real inputs.
-/

namespace MCP

/-- Uppercase hexadecimal digit, as produced by `encodeURIComponent`. -/
def hexDigitUpper (n : Nat) : Char :=
  if n < 10 then Char.ofNat (48 + n) else Char.ofNat (55 + n)

/-- Lowercase hexadecimal digit, as produced by JSON string escaping. -/
def hexDigitLower (n : Nat) : Char :=
  if n < 10 then Char.ofNat (48 + n) else Char.ofNat (87 + n)

/-- UTF-8 byte sequence of a character, used by `encodeURIComponent`. -/
def utf8Bytes (c : Char) : List Nat :=
  let n := c.toNat
  if n < 128 then [n]
  else if n < 2048 then [192 + n / 64, 128 + n % 64]
  else if n < 65536 then [224 + n / 4096, 128 + (n / 64) % 64, 128 + n % 64]
  else [240 + n / 262144, 128 + (n / 4096) % 64, 128 + (n / 64) % 64, 128 + n % 64]

/-- Percent-encoding of one byte, uppercase hex as in `encodeURIComponent`. -/
def percentByte (b : Nat) : String :=
  String.mk [Char.ofNat 37, hexDigitUpper (b / 16), hexDigitUpper (b % 16)]

/-- Characters left unescaped by JavaScript `encodeURIComponent`:
letters, digits, and `- _ . ! ~ * ( )` and the apostrophe. -/
def isUnreservedURI (c : Char) : Bool :=
  let n := c.toNat
  if (65 ≤ n ∧ n ≤ 90) ∨ (97 ≤ n ∧ n ≤ 122) ∨ (48 ≤ n ∧ n ≤ 57) ∨
     n = 45 ∨ n = 95 ∨ n = 46 ∨ n = 33 ∨ n = 126 ∨ n = 42 ∨
     n = 39 ∨ n = 40 ∨ n = 41
  then true else false

/-- JavaScript `encodeURIComponent`: unreserved characters are kept,
every other character is replaced by the percent-encoding of its UTF-8
bytes. -/
def encodeURIComponent (s : String) : String :=
  String.join (s.toList.map (fun c =>
    if isUnreservedURI c then String.singleton c
    else String.join ((utf8Bytes c).map percentByte)))

/-- JSON escape of a single character inside a string literal, as
performed by `JSON.stringify`. -/
def jsonEscapeChar (c : Char) : String :=
  let n := c.toNat
  if n = 34 then String.mk [Char.ofNat 92, Char.ofNat 34]
  else if n = 92 then String.mk [Char.ofNat 92, Char.ofNat 92]
  else if n = 8 then "\\b"
  else if n = 12 then "\\f"
  else if n = 10 then "\\n"
  else if n = 13 then "\\r"
  else if n = 9 then "\\t"
  else if n < 32 then "\\u00" ++ String.mk [hexDigitLower (n / 16), hexDigitLower (n % 16)]
  else String.singleton c

/-- JSON escape of a whole string body. -/
def jsonEscape (s : String) : String :=
  String.join (s.toList.map jsonEscapeChar)

/-- A JSON string literal: quoted and escaped. -/
def jsonQuote (s : String) : String :=
  "\"" ++ jsonEscape s ++ "\""

/-- `JSON.stringify` of a flat string-to-string map (the shape the env
configuration takes after parsing). -/
def jsonStringifyStrMap (m : List (String × String)) : String :=
  "\x7b" ++ ",".intercalate (m.map (fun kv => jsonQuote kv.1 ++ ":" ++ jsonQuote kv.2)) ++ "\x7d"

/-- Whether the first character list is a prefix of the second. -/
def isPrefixOfCL : List Char → List Char → Bool
  | [], _ => true
  | _ :: _, [] => false
  | a :: as, b :: bs => a == b && isPrefixOfCL as bs

/-- Whether the second character list occurs inside the first. -/
def containsCL : List Char → List Char → Bool
  | [], pat => isPrefixOfCL pat []
  | b :: bs, pat => isPrefixOfCL pat (b :: bs) || containsCL bs pat

/-- JavaScript `String.prototype.includes`: whether `pat` occurs as a
substring of `s`. -/
def includesSubstr (s pat : String) : Bool :=
  containsCL s.toList pat.toList

/-- JSON-like values, the shape of JSON-RPC results returned by
`sendRequest`. -/
inductive JVal where
  | null
  | bool (b : Bool)
  | int (n : Int)
  | str (s : String)
  | arr (xs : List JVal)
  | obj (fields : List (String × JVal))

/-- The error-shaped result object the class returns in-band:
an object with an `error` field holding `code` and `message`. -/
def errObj (code : Int) (msg : String) : JVal :=
  JVal.obj [("error", JVal.obj [("code", JVal.int code), ("message", JVal.str msg)])]

/-- The `args` configuration value: absent, a string, or an array of
strings (the three shapes `connectSSE` distinguishes). -/
inductive ArgsVal where
  | none
  | str (s : String)
  | arr (xs : List String)
  deriving Repr, DecidableEq

/-- The `env` configuration value: absent, a JSON string, or an
already-structured map. -/
inductive EnvVal where
  | none
  | str (s : String)
  | map (m : List (String × String))
  deriving Repr, DecidableEq

/-- The merged configuration of a connection, as produced by the
constructor (defaults `connectionType = "sse"`, `transportType =
"stdio"`, overridden by the supplied record).  `urlParams` is the query
parameter list of the parsed `config.url`. -/
structure Config where
  connectionType : String := "sse"
  transportType : String := "stdio"
  command : Option String := Option.none
  args : ArgsVal := ArgsVal.none
  env : EnvVal := EnvVal.none
  urlParams : List (String × String) := []
  authHeader : Option String := Option.none
  deriving Repr, DecidableEq

/-- `URLSearchParams.set`: replace the first entry with the given key
(dropping any later duplicates), or append if the key is absent. -/
def setParam : List (String × String) → String → String → List (String × String)
  | [], k, v => [(k, v)]
  | p :: rest, k, v =>
    if p.1 = k then (k, v) :: rest.filter (fun q => q.1 ≠ k)
    else p :: setParam rest k v

/-- First value associated with a key in a query-parameter list
(`URLSearchParams.get`). -/
def getParam : List (String × String) → String → Option String
  | [], _ => Option.none
  | p :: rest, k => if p.1 = k then some p.2 else getParam rest k

/-- The guard `config.command?.trim()?.length > 0` of `connectSSE`. -/
def commandActive (cfg : Config) : Bool :=
  match cfg.command with
  | some c => c.trim ≠ ""
  | Option.none => false

/-- The `argsValue` computation of `connectSSE`: arrays are filtered
for truthiness (non-empty strings) and space-joined, strings are
trimmed. -/
def argsValue : ArgsVal → String
  | ArgsVal.none => ""
  | ArgsVal.str s => s.trim
  | ArgsVal.arr xs => " ".intercalate (xs.filter (fun x => x ≠ ""))

/-- The env-resolution step of `connectSSE`: a falsy value yields no
env data; a non-empty string is JSON-parsed (`parse` is the JSON.parse
oracle), a parse failure being replaced by the empty map; a structured
map is used directly. -/
def resolveEnv (e : EnvVal) (parse : String → Option (List (String × String))) :
    Option (List (String × String)) :=
  match e with
  | EnvVal.none => Option.none
  | EnvVal.str s =>
    if s = "" then Option.none
    else match parse s with
      | some m => some m
      | Option.none => some []
  | EnvVal.map m => some m

/-- The command/transportType/args block of `connectSSE`: executed only
when a non-empty command is configured. -/
def commandParams (cfg : Config) (ps : List (String × String)) : List (String × String) :=
  if commandActive cfg then
    let ps := if ps.any (fun q => q.1 = "transportType") then ps
      else setParam ps "transportType"
        (if cfg.transportType = "" then "stdio" else cfg.transportType)
    let ps := setParam ps "command" (cfg.command.getD "")
    let av := argsValue cfg.args
    if av ≠ "" then setParam ps "args" av else ps
  else ps

/-- The env block of `connectSSE`: a non-empty resolved map is attached
as a single `env` parameter holding the percent-encoded JSON
serialization; an empty or absent map adds nothing. -/
def envParams (cfg : Config) (parse : String → Option (List (String × String)))
    (ps : List (String × String)) : List (String × String) :=
  match resolveEnv cfg.env parse with
  | some m =>
    if 0 < m.length then setParam ps "env" (encodeURIComponent (jsonStringifyStrMap m))
    else ps
  | Option.none => ps

/-- The full query-parameter list of the SSE establishment URL built by
`connectSSE` from the configuration and the current session
identifier.  The guard `if (this.sessionId)` is a JS truthiness test:
a null identifier and the empty string both skip the parameter. -/
def buildSSEParams (cfg : Config) (sessionId : Option String)
    (parse : String → Option (List (String × String))) : List (String × String) :=
  let ps := envParams cfg parse (commandParams cfg cfg.urlParams)
  match sessionId with
  | some sid => if sid = "" then ps else setParam ps "session_id" sid
  | Option.none => ps

/-- The mutable instance state of an `MCPConnection`, exactly the
fields the constructor creates.  Transports and handlers are
represented by identifiers (`Option Nat`): `some` means an object is
held, `none` means the field is null. -/
structure ConnState where
  config : Config
  eventSource : Option Nat := Option.none
  messageEndpoint : Option String := Option.none
  initialized : Bool := false
  capabilities : Option JVal := Option.none
  serverInfo : Option JVal := Option.none
  resources : List (String × JVal) := []
  tools : List (String × JVal) := []
  subscriptions : List (String × JVal) := []
  messageHandler : Option Nat := Option.none
  reconnectAttempts : Nat := 0
  maxReconnectAttempts : Nat := 5
  reconnectDelay : Nat := 1000
  sessionId : Option String := Option.none
  ws : Option Nat := Option.none

/-- The state produced by the constructor for a given configuration. -/
def initState (cfg : Config) : ConnState :=
  { config := cfg }

/-- The `disconnect` method: close and null both transports, clear the
ready flag, the descriptors and the three collections.  Everything
else (session id, reconnect counters, endpoint, handler) is left
untouched. -/
def disconnect (st : ConnState) : ConnState :=
  { st with
    eventSource := Option.none
    ws := Option.none
    initialized := false
    capabilities := Option.none
    serverInfo := Option.none
    resources := []
    tools := []
    subscriptions := [] }

/-- Outcome of one `fetch` POST as the handshake code observes it:
either the network layer threw, or a response with a status and a body
text arrived. -/
inductive PostOutcome where
  | netError (msg : String)
  | resp (status : Nat) (body : String)
  deriving Repr, DecidableEq

/-- `Response.ok`: status in the range 200–299. -/
def respOk (status : Nat) : Bool :=
  decide (200 ≤ status) && decide (status < 300)

/-- Whether a POST outcome is a success response. -/
def postOk : PostOutcome → Bool
  | PostOutcome.netError _ => false
  | PostOutcome.resp s _ => respOk s

/-- The `_sendInitializedNotification` method: succeeds on an ok
response, otherwise throws an error carrying the status and body. -/
def sendInitializedNotification : PostOutcome → Except String Unit
  | PostOutcome.netError m => Except.error m
  | PostOutcome.resp s body =>
    if respOk s then Except.ok ()
    else Except.error ("Initialized notification failed: " ++ toString s ++ " " ++ body)

/-- Result of running `_sendInitializeRequest`: whether the initialized
notification POST was issued at all, and the overall outcome. -/
structure HandshakeRun where
  notificationSent : Bool
  result : Except String Unit
  deriving Repr

/-- The `_sendInitializeRequest` method: POST the initialize request;
on an ok response, POST the initialized notification and propagate its
outcome; on a non-ok response or a network error, throw without
sending the notification. -/
def sendInitializeRequest (initO notifO : PostOutcome) : HandshakeRun :=
  match initO with
  | PostOutcome.netError m => { notificationSent := false, result := Except.error m }
  | PostOutcome.resp s body =>
    if respOk s then
      { notificationSent := true, result := sendInitializedNotification notifO }
    else
      { notificationSent := false
        result := Except.error ("Initialize request failed: " ++ toString s ++ " " ++ body) }

/-- Whether an `Except` carries a success. -/
def exceptOk : Except String Unit → Bool
  | Except.ok _ => true
  | Except.error _ => false

/-- The error message carried by a failed `Except` (empty on success). -/
def exceptErrMsg : Except String Unit → String
  | Except.ok _ => ""
  | Except.error m => m

/-- The payload of an `endpoint` event after `new URL(event.data,
origin)` succeeded: the resolved submission URL and its `session_id`
query parameter, if present. -/
structure EndpointData where
  resolvedUrl : String
  sessionParam : Option String
  deriving Repr, DecidableEq

/-- Observable effect of one event-handler run: nothing, resolving the
pending connect promise, rejecting it with a message, or scheduling a
reconnect after a delay. -/
inductive Effect where
  | none
  | resolveConnect
  | rejectConnect (msg : String)
  | scheduleRetry (delay : Nat)
  deriving Repr, DecidableEq

/-- The `endpoint` event listener of `connectSSE`: store the resolved
submission endpoint, adopt a `session_id` carried by the payload, then
run the handshake; success sets `initialized` and resolves the pending
connect promise, failure tears the connection down and rejects it.
The reconnect and first-connect branches of the listener perform the
same state changes. -/
def onEndpoint (st : ConnState) (d : EndpointData) (initO notifO : PostOutcome) :
    ConnState × Effect :=
  let st := { st with messageEndpoint := some d.resolvedUrl }
  let st := match d.sessionParam with
    | some s => { st with sessionId := some s }
    | Option.none => st
  match (sendInitializeRequest initO notifO).result with
  | Except.ok _ => ({ st with initialized := true }, Effect.resolveConnect)
  | Except.error m => (disconnect st, Effect.rejectConnect m)

/-- The `onopen` handler of `connectSSE`: reset the reconnect counter
and the backoff delay. -/
def onOpen (st : ConnState) : ConnState :=
  { st with reconnectAttempts := 0, reconnectDelay := 1000 }

/-- The `onerror` handler of `connectSSE`.  If the manager was ready:
mark it not ready, drop the transport, and either schedule a retry
after the current backoff delay (doubling it afterwards, capped at
30000) when the attempt counter is below the maximum, or perform a
full disconnect.  If the manager was not ready: full disconnect and
reject the pending connect promise. -/
def onError (st : ConnState) : ConnState × Effect :=
  if st.initialized then
    let st1 := { st with initialized := false, eventSource := Option.none }
    if st1.reconnectAttempts < st1.maxReconnectAttempts then
      let st2 := { st1 with reconnectAttempts := st1.reconnectAttempts + 1 }
      ({ st2 with reconnectDelay := min (st2.reconnectDelay * 2) 30000 },
        Effect.scheduleRetry st2.reconnectDelay)
    else
      (disconnect st1, Effect.none)
  else
    (disconnect st, Effect.rejectConnect "SSE connection failed")

/-- Events a manager instance can process: transport open, transport
error, endpoint event (with the handshake POST outcomes), a regular
message, an explicit `disconnect` call, and the state-mutating start
of a `connectSSE` call (store the handler, open a fresh transport). -/
inductive Event where
  | eOpen
  | eError
  | eEndpoint (d : EndpointData) (initO notifO : PostOutcome)
  | eMessage (payload : String)
  | eDisconnect
  | eConnectStart (handler : Nat) (tid : Nat)
  deriving Repr, DecidableEq

/-- One step of the event-driven machine, returning the new state and
the observable effect.  A `message` event only forwards its payload to
the handler and never mutates state. -/
def step (st : ConnState) (e : Event) : ConnState × Effect :=
  match e with
  | Event.eOpen => (onOpen st, Effect.none)
  | Event.eError => onError st
  | Event.eEndpoint d initO notifO => onEndpoint st d initO notifO
  | Event.eMessage _ => (st, Effect.none)
  | Event.eDisconnect => (disconnect st, Effect.none)
  | Event.eConnectStart h tid =>
    ({ st with messageHandler := some h, eventSource := some tid }, Effect.none)

/-- Run a sequence of events, keeping only the final state. -/
def runTrace (st : ConnState) : List Event → ConnState
  | [] => st
  | e :: rest => runTrace (step st e).1 rest

/-- Run a sequence of events, collecting the effects in order. -/
def runTraceE (st : ConnState) : List Event → ConnState × List Effect
  | [] => (st, [])
  | e :: rest =>
    let s1 := (step st e).1
    let r := runTraceE s1 rest
    (r.1, (step st e).2 :: r.2)

/-- The `connect(handler)` entry point: store the handler, then
dispatch on the configured connection type.  For `"sse"` the SSE
establishment starts (a fresh transport is opened against the built
URL); for anything else an error is logged and `null` is returned with
no further state change.  The second component is the returned value:
`some` carries the query parameters of the establishment URL the SSE
path opens, `none` is the literal `null` result. -/
def connect (st : ConnState) (handler : Nat) (tid : Nat)
    (parse : String → Option (List (String × String))) :
    ConnState × Option (List (String × String)) :=
  let st := { st with messageHandler := some handler }
  if st.config.connectionType = "sse" then
    ({ st with eventSource := some tid }, some (buildSSEParams st.config st.sessionId parse))
  else
    (st, Option.none)

/-- One `fetch` response as `sendRequest` inspects it: status, declared
content type, body text, and the outcome of `response.json()`. -/
structure FetchResp where
  status : Nat
  contentType : Option String
  body : String
  jsonBody : Except String JVal

/-- Outcome of the `sendRequest` POST: network failure or a response. -/
inductive FetchOutcome where
  | netError (msg : String)
  | success (r : FetchResp)

/-- The content-type test of `sendRequest`:
`contentType && contentType.includes('application/json')`. -/
def ctDeclaresJson : Option String → Bool
  | some ct => includesSubstr ct "application/json"
  | Option.none => false

/-- The response interpretation of the SSE branch of `sendRequest`:
a JSON content type is parsed and returned as-is (a parse failure is
caught like any thrown error); otherwise an ok status synthesizes
`{result: {success: true}}` and a non-ok status yields an error object
carrying the HTTP status and the body text; a network failure yields
an error object with code -1 and the failure message. -/
def interpretSSEResponse : FetchOutcome → JVal
  | FetchOutcome.netError m => errObj (-1) m
  | FetchOutcome.success r =>
    if ctDeclaresJson r.contentType then
      match r.jsonBody with
      | Except.ok j => j
      | Except.error m => errObj (-1) m
    else if respOk r.status then
      JVal.obj [("result", JVal.obj [("success", JVal.bool true)])]
    else
      errObj (Int.ofNat r.status) r.body

/-- Outcome of the transparent `connectSSE` call inside `sendRequest`:
either the reconnect promise resolved, leaving the instance in a new
state, or it rejected, also leaving whatever state the failed attempt
produced. -/
inductive ReconnectOutcome where
  | success (st : ConnState)
  | failure (st : ConnState) (msg : String)

/-- The value `sendRequest` settles with: an in-band JSON value (the
SSE path always resolves with one), or the pending socket-branch
promise that only settles when a matching message arrives. -/
inductive SendResult where
  | value (j : JVal)
  | wsPending

/-- Result of running `sendRequest`: the state it leaves behind, how
many transparent reconnects it attempted, and the settled value. -/
structure SendRun where
  state : ConnState
  reconnectsAttempted : Nat
  result : SendResult

/-- The `sendRequest` method.  When the manager is not initialized and
a handler is stored, exactly one transparent reconnect is attempted;
its failure is caught and converted to the fixed error object.
Otherwise (and after a successful reconnect) the SSE branch POSTs and
interprets the response in-band, while any other connection type takes
the socket branch. -/
def sendRequest (st : ConnState) (rec : ReconnectOutcome) (post : FetchOutcome) : SendRun :=
  if !st.initialized && st.messageHandler.isSome then
    match rec with
    | ReconnectOutcome.failure st1 _ =>
      { state := st1
        reconnectsAttempted := 1
        result := SendResult.value
          (errObj (-1) "Connection not initialized and reconnect failed") }
    | ReconnectOutcome.success st1 =>
      if st1.config.connectionType = "sse" then
        { state := st1, reconnectsAttempted := 1
          result := SendResult.value (interpretSSEResponse post) }
      else
        { state := st1, reconnectsAttempted := 1, result := SendResult.wsPending }
  else
    if st.config.connectionType = "sse" then
      { state := st, reconnectsAttempted := 0
        result := SendResult.value (interpretSSEResponse post) }
    else
      { state := st, reconnectsAttempted := 0, result := SendResult.wsPending }

/-! Helper lemmas about query-parameter lists. -/

/-- Setting a key makes it retrievable with exactly the set value. -/
theorem getParam_setParam (ps : List (String × String)) (k v : String) :
    getParam (setParam ps k v) k = some v := by
  induction ps with
  | nil => simp [setParam, getParam]
  | cons p rest ih =>
    by_cases h : p.1 = k
    · simp [setParam, getParam, h]
    · simp [setParam, getParam, h, ih]

/-- Dropping the entries of one key leaves lookups of other keys
unchanged. -/
theorem getParam_filter_ne (l : List (String × String)) (k k2 : String) (h : k2 ≠ k) :
    getParam (l.filter (fun q => q.1 ≠ k)) k2 = getParam l k2 := by
  induction l with
  | nil => rfl
  | cons p rest ih =>
    by_cases hp : p.1 = k
    · have hne : ¬ p.1 = k2 := by rw [hp]; exact Ne.symm h
      rw [List.filter_cons_of_neg (by simpa using hp)]
      rw [ih]
      simp [getParam, hne]
    · rw [List.filter_cons_of_pos (by simpa using hp)]
      simp only [ne_eq, decide_not] at ih
      by_cases hk2 : p.1 = k2 <;> simp [getParam, hk2, ih]

/-- Setting one key leaves lookups of other keys unchanged. -/
theorem getParam_setParam_ne (ps : List (String × String)) (k v k2 : String) (h : k2 ≠ k) :
    getParam (setParam ps k v) k2 = getParam ps k2 := by
  induction ps with
  | nil => simp [setParam, getParam, Ne.symm h]
  | cons p rest ih =>
    by_cases hp : p.1 = k
    · have hne : ¬ p.1 = k2 := by rw [hp]; exact Ne.symm h
      simp only [setParam, hp, if_true, ite_true, getParam]
      rw [getParam_filter_ne rest k k2 h]
      simp [getParam, Ne.symm h, hne]
    · by_cases hk2 : p.1 = k2 <;> simp [setParam, getParam, hp, hk2, ih, h]

/-- The command/transportType/args block does not touch other keys. -/
theorem getParam_commandParams (cfg : Config) (ps : List (String × String)) (k : String)
    (h1 : k ≠ "transportType") (h2 : k ≠ "command") (h3 : k ≠ "args") :
    getParam (commandParams cfg ps) k = getParam ps k := by
  unfold commandParams
  by_cases hc : commandActive cfg
  · by_cases ht : ps.any (fun q => q.1 = "transportType") <;>
      by_cases ha : argsValue cfg.args = "" <;>
        simp [hc, ht, ha, getParam_setParam_ne _ _ _ _ h1,
          getParam_setParam_ne _ _ _ _ h2, getParam_setParam_ne _ _ _ _ h3]
  · simp [hc]

/-- The `env` lookup of the full establishment URL is decided by the
env block alone (the trailing session parameter never shadows it). -/
theorem getParam_buildSSE_env (cfg : Config) (sid : Option String)
    (parse : String → Option (List (String × String))) :
    getParam (buildSSEParams cfg sid parse) "env" =
      getParam (envParams cfg parse (commandParams cfg cfg.urlParams)) "env" := by
  unfold buildSSEParams
  cases sid with
  | none => rfl
  | some s =>
    by_cases hs : s = ""
    · simp [hs]
    · simp only [hs, if_false, ite_false]
      exact getParam_setParam_ne _ _ _ _ (by decide)

/-! Helper lemmas about the event machine. -/

/-- No event handler ever clears a non-null session identifier. -/
theorem step_sessionId_isSome (st : ConnState) (e : Event) (h : st.sessionId.isSome) :
    ((step st e).1).sessionId.isSome := by
  cases e with
  | eOpen => simpa [step, onOpen] using h
  | eError =>
    simp only [step, onError]
    by_cases h1 : st.initialized
    · by_cases h2 : st.reconnectAttempts < st.maxReconnectAttempts <;>
        simp [h1, h2, disconnect, h]
    · simp [h1, disconnect, h]
  | eEndpoint d initO notifO =>
    simp only [step, onEndpoint]
    rcases d with ⟨u, sp⟩
    cases sp with
    | none =>
      rcases hr : (sendInitializeRequest initO notifO).result with _ | m <;>
        simpa [hr, disconnect] using h
    | some s =>
      rcases hr : (sendInitializeRequest initO notifO).result with _ | m <;>
        simp [hr, disconnect]
  | eMessage p => simpa [step] using h
  | eDisconnect => simpa [step, disconnect] using h
  | eConnectStart hd tid => simpa [step] using h

/-- Session persistence along any event sequence. -/
theorem runTrace_sessionId_isSome (st : ConnState) (es : List Event) (h : st.sessionId.isSome) :
    (runTrace st es).sessionId.isSome := by
  induction es generalizing st with
  | nil => simpa [runTrace] using h
  | cons e rest ih => exact ih _ (step_sessionId_isSome st e h)

/-- A known non-empty session identifier is always the value of the
`session_id` parameter of the built establishment URL. -/
theorem getParam_buildSSEParams_session (cfg : Config) (s : String)
    (parse : String → Option (List (String × String))) (hne : s ≠ "") :
    getParam (buildSSEParams cfg (some s) parse) "session_id" = some s := by
  simp [buildSSEParams, hne, getParam_setParam]

/-- A baseline configuration (all defaults, `connectionType = "sse"`,
no command, no env). -/
def cfgEx : Config := {}

/-- A manager state holding a session identifier from a prior
handshake. -/
def stSessEx : ConnState :=
  { config := cfgEx, sessionId := some "abc123", messageHandler := some 0 }

/-- A freshly constructed manager with the baseline configuration. -/
def freshConnEx : ConnState := initState cfgEx

/-- The endpoint payload of a handshake whose submission URL carries an
empty `session_id` value (`?session_id=`): `URLSearchParams.has`
answers true and `get` answers the empty string. -/
def endpointDataEmptySess : EndpointData :=
  { resolvedUrl := "https://host:1234/messages?session_id=",
    sessionParam := some "" }

/-- Counterexample for C1: an endpoint payload `?session_id=` sets the
session identifier to the non-null empty string (the listener only
tests `has('session_id')`), the handshake completes, yet the next
establishment URL built from that state carries no `session_id`
parameter at all — the guard `if (this.sessionId)` is a truthiness
test that skips the empty string — refuting "every subsequently built
establishment URL carries it". -/
theorem session_persistence_C1_counterexample :
    (onEndpoint freshConnEx endpointDataEmptySess (PostOutcome.resp 200 "")
      (PostOutcome.resp 200 "")).1.sessionId = some "" ∧
    (onEndpoint freshConnEx endpointDataEmptySess (PostOutcome.resp 200 "")
      (PostOutcome.resp 200 "")).1.sessionId.isSome = true ∧
    (onEndpoint freshConnEx endpointDataEmptySess (PostOutcome.resp 200 "")
      (PostOutcome.resp 200 "")).1.initialized = true ∧
    getParam
      (buildSSEParams
        (onEndpoint freshConnEx endpointDataEmptySess (PostOutcome.resp 200 "")
          (PostOutcome.resp 200 "")).1.config
        (onEndpoint freshConnEx endpointDataEmptySess (PostOutcome.resp 200 "")
          (PostOutcome.resp 200 "")).1.sessionId
        (fun _ => Option.none))
      "session_id" = Option.none :=
  ⟨rfl, rfl, rfl, rfl⟩

/-- C1 amended: once the session identifier is non-null, no reconnect
and no disconnect ever clears it (any event sequence keeps it
non-null), and every establishment URL subsequently built while the
identifier is non-empty carries it verbatim as the `session_id` query
parameter; a URL built while the stored identifier is the empty
string omits the parameter. -/
theorem session_persistence_C1_amended (st : ConnState) (es : List Event)
    (parse : String → Option (List (String × String))) (h : st.sessionId.isSome) :
    (runTrace st es).sessionId.isSome ∧
    ((runTrace st es).sessionId.getD "" ≠ "" →
      getParam (buildSSEParams (runTrace st es).config (runTrace st es).sessionId parse)
        "session_id" = (runTrace st es).sessionId) := by
  refine ⟨runTrace_sessionId_isSome st es h, ?_⟩
  intro hne
  obtain ⟨s, hs⟩ := Option.isSome_iff_exists.mp (runTrace_sessionId_isSome st es h)
  rw [hs]
  rw [hs] at hne
  simp only [Option.getD_some] at hne
  exact getParam_buildSSEParams_session _ s parse hne

/-- Witness for the amended C1: a state with session id `abc123` going
through a transport error keeps the id and rebuilds a URL carrying
it. -/
theorem session_persistence_C1_amended_witness :
    (runTrace stSessEx [Event.eError]).sessionId.isSome ∧
    ((runTrace stSessEx [Event.eError]).sessionId.getD "" ≠ "" →
      getParam
        (buildSSEParams (runTrace stSessEx [Event.eError]).config
          (runTrace stSessEx [Event.eError]).sessionId (fun _ => Option.none))
        "session_id" = (runTrace stSessEx [Event.eError]).sessionId) :=
  session_persistence_C1_amended stSessEx [Event.eError] (fun _ => Option.none) rfl

/-- C8: `disconnect` is idempotent and callable from any state; it
nulls both transports, clears the ready flag, the two descriptors and
the three collections, and leaves the session identifier, the
reconnect counter and the backoff delay unchanged. -/
theorem disconnect_idempotent_C8 (st : ConnState) :
    disconnect (disconnect st) = disconnect st ∧
    (disconnect st).eventSource = Option.none ∧
    (disconnect st).ws = Option.none ∧
    (disconnect st).initialized = false ∧
    (disconnect st).capabilities = Option.none ∧
    (disconnect st).serverInfo = Option.none ∧
    (disconnect st).resources = [] ∧
    (disconnect st).tools = [] ∧
    (disconnect st).subscriptions = [] ∧
    (disconnect st).sessionId = st.sessionId ∧
    (disconnect st).reconnectAttempts = st.reconnectAttempts ∧
    (disconnect st).reconnectDelay = st.reconnectDelay :=
  ⟨rfl, rfl, rfl, rfl, rfl, rfl, rfl, rfl, rfl, rfl, rfl, rfl⟩

/-- Witness for C8: the clearing and framing facts evaluated on a
ready manager state. -/
theorem disconnect_idempotent_C8_witness :
    disconnect (disconnect stSessEx) = disconnect stSessEx ∧
    (disconnect stSessEx).eventSource = Option.none ∧
    (disconnect stSessEx).ws = Option.none ∧
    (disconnect stSessEx).initialized = false ∧
    (disconnect stSessEx).capabilities = Option.none ∧
    (disconnect stSessEx).serverInfo = Option.none ∧
    (disconnect stSessEx).resources = [] ∧
    (disconnect stSessEx).tools = [] ∧
    (disconnect stSessEx).subscriptions = [] ∧
    (disconnect stSessEx).sessionId = stSessEx.sessionId ∧
    (disconnect stSessEx).reconnectAttempts = stSessEx.reconnectAttempts ∧
    (disconnect stSessEx).reconnectDelay = stSessEx.reconnectDelay :=
  disconnect_idempotent_C8 stSessEx

/-- A manager state with a completed handshake (ready), holding the
session identifier the endpoint payload supplied, at the initial
backoff. -/
def readyStateEx : ConnState :=
  { config := cfgEx, eventSource := some 1,
    messageEndpoint := some "https://host:1234/messages?session_id=abc123",
    initialized := true, messageHandler := some 0, sessionId := some "abc123" }

/-- C2: the backoff delay starts at 1000 ms; a post-ready error below
the retry budget schedules the retry after the current delay and then
doubles the delay, capped at 30000 ms; hence the delay never decreases
across consecutive such failures and stays within [1000, 30000]. -/
theorem backoff_C2 (cfg : Config) (st : ConnState)
    (h1 : 1000 ≤ st.reconnectDelay) (h2 : st.reconnectDelay ≤ 30000)
    (h3 : st.initialized = true)
    (h4 : st.reconnectAttempts < st.maxReconnectAttempts) :
    (initState cfg).reconnectDelay = 1000 ∧
    (onError st).2 = Effect.scheduleRetry st.reconnectDelay ∧
    (onError st).1.reconnectDelay = min (st.reconnectDelay * 2) 30000 ∧
    st.reconnectDelay ≤ (onError st).1.reconnectDelay ∧
    1000 ≤ (onError st).1.reconnectDelay ∧
    (onError st).1.reconnectDelay ≤ 30000 := by
  refine ⟨rfl, ?_, ?_, ?_, ?_, ?_⟩ <;> simp [onError, h3, h4] <;> omega

/-- Witness for C2: a ready manager at initial backoff schedules after
1000 ms and doubles to 2000 ms. -/
theorem backoff_C2_witness :
    (initState cfgEx).reconnectDelay = 1000 ∧
    (onError readyStateEx).2 = Effect.scheduleRetry readyStateEx.reconnectDelay ∧
    (onError readyStateEx).1.reconnectDelay = min (readyStateEx.reconnectDelay * 2) 30000 ∧
    readyStateEx.reconnectDelay ≤ (onError readyStateEx).1.reconnectDelay ∧
    1000 ≤ (onError readyStateEx).1.reconnectDelay ∧
    (onError readyStateEx).1.reconnectDelay ≤ 30000 :=
  backoff_C2 cfgEx readyStateEx (by decide) (by decide) rfl (by decide)

/-- No event handler ever assigns the socket field. -/
theorem step_ws_none (st : ConnState) (e : Event) (h : st.ws = Option.none) :
    ((step st e).1).ws = Option.none := by
  cases e with
  | eOpen => simpa [step, onOpen] using h
  | eError =>
    simp only [step, onError]
    by_cases h1 : st.initialized
    · by_cases h2 : st.reconnectAttempts < st.maxReconnectAttempts <;>
        simp [h1, h2, disconnect, h]
    · simp [h1, disconnect]
  | eEndpoint d initO notifO =>
    simp only [step, onEndpoint]
    rcases d with ⟨u, sp⟩
    cases sp with
    | none =>
      rcases hr : (sendInitializeRequest initO notifO).result with _ | m <;>
        simp [hr, disconnect, h]
    | some s =>
      rcases hr : (sendInitializeRequest initO notifO).result with _ | m <;>
        simp [hr, disconnect, h]
  | eMessage p => simpa [step] using h
  | eDisconnect => simp [step, disconnect]
  | eConnectStart hd tid => simpa [step] using h

/-- The socket field stays null along any event sequence. -/
theorem runTrace_ws_none (st : ConnState) (es : List Event) (h : st.ws = Option.none) :
    (runTrace st es).ws = Option.none := by
  induction es generalizing st with
  | nil => simpa [runTrace] using h
  | cons e rest ih => exact ih _ (step_ws_none st e h)

/-- C10: for a configuration whose connection type is not `"sse"`,
`connect` stores the handler, resolves with null and mutates nothing
else; and no operation of the class ever assigns the socket field
`ws`: it is null at construction and stays null through any event
sequence. -/
theorem connect_non_sse_C10 (cfg : Config) (st : ConnState) (handler tid : Nat)
    (parse : String → Option (List (String × String))) (es : List Event)
    (hty : ¬ st.config.connectionType = "sse") (hws : st.ws = Option.none) :
    connect st handler tid parse = ({ st with messageHandler := some handler }, Option.none) ∧
    (initState cfg).ws = Option.none ∧
    (runTrace st es).ws = Option.none := by
  refine ⟨?_, rfl, runTrace_ws_none st es hws⟩
  simp [connect, hty]

/-- A configuration selecting the socket connection type. -/
def cfgWsEx : Config := { connectionType := "ws" }

/-- Witness for C10: a freshly constructed socket-type manager. -/
theorem connect_non_sse_C10_witness :
    connect (initState cfgWsEx) 0 1 (fun _ => Option.none) =
      ({ initState cfgWsEx with messageHandler := some 0 }, Option.none) ∧
    (initState cfgWsEx).ws = Option.none ∧
    (runTrace (initState cfgWsEx) [Event.eOpen, Event.eError]).ws = Option.none :=
  connect_non_sse_C10 cfgWsEx (initState cfgWsEx) 0 1 (fun _ => Option.none)
    [Event.eOpen, Event.eError] (by decide) rfl

/-- Whether `sendRequest` settled with an in-band value (as opposed to
leaving the socket-branch promise pending). -/
def isValue : SendResult → Bool
  | SendResult.value _ => true
  | SendResult.wsPending => false

/-- C4: called while not ready with a stored handler, `sendRequest`
attempts exactly one transparent reconnect; a reconnect failure is
returned as the in-band value `{error: {code: -1, message:
"Connection not initialized and reconnect failed"}}`, and on the SSE
path `sendRequest` always settles with an in-band value, never an
unhandled rejection. -/
theorem sendRequest_reconnect_C4 (st st1 st2 : ConnState) (msg : String) (post : FetchOutcome)
    (h1 : st.initialized = false) (h2 : st.messageHandler.isSome = true)
    (hcfg : st2.config.connectionType = "sse") :
    (sendRequest st (ReconnectOutcome.failure st1 msg) post).reconnectsAttempted = 1 ∧
    (sendRequest st (ReconnectOutcome.failure st1 msg) post).result =
      SendResult.value (errObj (-1) "Connection not initialized and reconnect failed") ∧
    isValue (sendRequest st (ReconnectOutcome.failure st1 msg) post).result = true ∧
    (sendRequest st (ReconnectOutcome.success st2) post).reconnectsAttempted = 1 ∧
    isValue (sendRequest st (ReconnectOutcome.success st2) post).result = true := by
  have hcond : (!st.initialized && st.messageHandler.isSome) = true := by
    rw [h1, h2]; rfl
  refine ⟨?_, ?_, ?_, ?_, ?_⟩ <;> simp [sendRequest, hcond, hcfg, isValue]

/-- A not-ready manager that already stored a handler via connect. -/
def stStoredEx : ConnState := { config := cfgEx, messageHandler := some 0 }

/-- Witness for C4: reconnect failing with a network error yields the
fixed -1 error value after exactly one attempt. -/
theorem sendRequest_reconnect_C4_witness :
    (sendRequest stStoredEx (ReconnectOutcome.failure (disconnect stStoredEx) "refused")
        (FetchOutcome.netError "refused")).reconnectsAttempted = 1 ∧
    (sendRequest stStoredEx (ReconnectOutcome.failure (disconnect stStoredEx) "refused")
        (FetchOutcome.netError "refused")).result =
      SendResult.value (errObj (-1) "Connection not initialized and reconnect failed") ∧
    isValue (sendRequest stStoredEx (ReconnectOutcome.failure (disconnect stStoredEx) "refused")
        (FetchOutcome.netError "refused")).result = true ∧
    (sendRequest stStoredEx (ReconnectOutcome.success readyStateEx)
        (FetchOutcome.netError "refused")).reconnectsAttempted = 1 ∧
    isValue (sendRequest stStoredEx (ReconnectOutcome.success readyStateEx)
        (FetchOutcome.netError "refused")).result = true :=
  sendRequest_reconnect_C4 stStoredEx (disconnect stStoredEx) readyStateEx "refused"
    (FetchOutcome.netError "refused") rfl rfl rfl

/-- The scenario response: status 500, non-JSON content type, body
"boom". -/
def respEx500 : FetchResp :=
  { status := 500, contentType := some "text/plain", body := "boom",
    jsonBody := Except.error "invalid json" }

/-- A JSON response whose parsed body is the string "pong". -/
def respJsonEx : FetchResp :=
  { status := 200, contentType := some "application/json", body := "\"pong\"",
    jsonBody := Except.ok (JVal.str "pong") }

/-- C5: the SSE branch of `sendRequest` interprets the POST response as
follows: a declared JSON content type is parsed and returned as-is; a
non-JSON success status yields `{result: {success: true}}`; a non-ok
status yields an error object carrying the HTTP status as code and the
body text as message (status 500 with body "boom" gives code 500,
message "boom"); a transport failure is converted to an error object
with code -1. -/
theorem sendRequest_response_C5 (r : FetchResp) (j : JVal) (m : String) :
    (ctDeclaresJson r.contentType = true → r.jsonBody = Except.ok j →
      interpretSSEResponse (FetchOutcome.success r) = j) ∧
    (ctDeclaresJson r.contentType = false → respOk r.status = true →
      interpretSSEResponse (FetchOutcome.success r) =
        JVal.obj [("result", JVal.obj [("success", JVal.bool true)])]) ∧
    (ctDeclaresJson r.contentType = false → respOk r.status = false →
      interpretSSEResponse (FetchOutcome.success r) = errObj (Int.ofNat r.status) r.body) ∧
    interpretSSEResponse (FetchOutcome.netError m) = errObj (-1) m ∧
    interpretSSEResponse (FetchOutcome.success respEx500) = errObj 500 "boom" := by
  refine ⟨?_, ?_, ?_, rfl, rfl⟩
  · intro hct hj
    simp [interpretSSEResponse, hct, hj]
  · intro hct hok
    simp [interpretSSEResponse, hct, hok]
  · intro hct hok
    simp [interpretSSEResponse, hct, hok]

/-- Witness for C5: a JSON response body is returned as-is, and the
500/"boom" scenario yields the 500 error object. -/
theorem sendRequest_response_C5_witness :
    (ctDeclaresJson respJsonEx.contentType = true →
      respJsonEx.jsonBody = Except.ok (JVal.str "pong") →
      interpretSSEResponse (FetchOutcome.success respJsonEx) = JVal.str "pong") ∧
    (ctDeclaresJson respJsonEx.contentType = false →
      respOk respJsonEx.status = true →
      interpretSSEResponse (FetchOutcome.success respJsonEx) =
        JVal.obj [("result", JVal.obj [("success", JVal.bool true)])]) ∧
    (ctDeclaresJson respJsonEx.contentType = false →
      respOk respJsonEx.status = false →
      interpretSSEResponse (FetchOutcome.success respJsonEx) =
        errObj (Int.ofNat respJsonEx.status) respJsonEx.body) ∧
    interpretSSEResponse (FetchOutcome.netError "network down") = errObj (-1) "network down" ∧
    interpretSSEResponse (FetchOutcome.success respEx500) = errObj 500 "boom" :=
  sendRequest_response_C5 respJsonEx (JVal.str "pong") "network down"

/-- The endpoint payload of the handshake scenario: the submission URL
carrying a session identifier. -/
def endpointDataEx : EndpointData :=
  { resolvedUrl := "https://host:1234/messages?session_id=abc123",
    sessionParam := some "abc123" }

/-- C6: the handshake is the initialize POST followed by the
initialized notification POST; the notification is sent iff the
initialize POST succeeded, the handshake result is success iff both
POSTs succeeded, success makes the manager ready and resolves the
pending connect promise, and failure of either POST rejects it and
tears the transport down. -/
theorem handshake_C6 (st : ConnState) (d : EndpointData) (initO notifO : PostOutcome) :
    (sendInitializeRequest initO notifO).notificationSent = postOk initO ∧
    exceptOk (sendInitializeRequest initO notifO).result = (postOk initO && postOk notifO) ∧
    (exceptOk (sendInitializeRequest initO notifO).result = true →
      (onEndpoint st d initO notifO).1.initialized = true ∧
      (onEndpoint st d initO notifO).2 = Effect.resolveConnect) ∧
    (exceptOk (sendInitializeRequest initO notifO).result = false →
      (onEndpoint st d initO notifO).2 =
        Effect.rejectConnect (exceptErrMsg (sendInitializeRequest initO notifO).result) ∧
      (onEndpoint st d initO notifO).1.eventSource = Option.none ∧
      (onEndpoint st d initO notifO).1.initialized = false ∧
      (onEndpoint st d initO notifO).1.capabilities = Option.none ∧
      (onEndpoint st d initO notifO).1.serverInfo = Option.none ∧
      (onEndpoint st d initO notifO).1.resources = [] ∧
      (onEndpoint st d initO notifO).1.tools = [] ∧
      (onEndpoint st d initO notifO).1.subscriptions = []) := by
  refine ⟨?_, ?_, ?_, ?_⟩
  · cases initO with
    | netError m => rfl
    | resp s body =>
      by_cases hs : respOk s = true <;> simp [sendInitializeRequest, postOk, hs]
  · cases initO with
    | netError m => rfl
    | resp s body =>
      by_cases hs : respOk s = true
      · cases notifO with
        | netError m2 =>
          simp [sendInitializeRequest, sendInitializedNotification, postOk, exceptOk, hs]
        | resp s2 b2 =>
          by_cases hs2 : respOk s2 = true <;>
            simp [sendInitializeRequest, sendInitializedNotification, postOk, exceptOk, hs, hs2]
      · simp [sendInitializeRequest, postOk, exceptOk, hs]
  · intro hok
    rcases hr : (sendInitializeRequest initO notifO).result with m | _
    · simp [exceptOk, hr] at hok
    · rcases d with ⟨u, sp⟩
      cases sp <;> simp [onEndpoint, hr]
  · intro hbad
    rcases hr : (sendInitializeRequest initO notifO).result with m | _
    · rcases d with ⟨u, sp⟩
      cases sp <;> simp [onEndpoint, hr, disconnect, exceptErrMsg]
    · simp [exceptOk, hr] at hbad

/-- Witness for C6: initialize answered 200, notification answered
500 — the notification was sent but the handshake fails. -/
theorem handshake_C6_witness :
    (sendInitializeRequest (PostOutcome.resp 200 "ok")
        (PostOutcome.resp 500 "no")).notificationSent = postOk (PostOutcome.resp 200 "ok") ∧
    exceptOk (sendInitializeRequest (PostOutcome.resp 200 "ok")
        (PostOutcome.resp 500 "no")).result =
      (postOk (PostOutcome.resp 200 "ok") && postOk (PostOutcome.resp 500 "no")) ∧
    (exceptOk (sendInitializeRequest (PostOutcome.resp 200 "ok")
        (PostOutcome.resp 500 "no")).result = true →
      (onEndpoint stStoredEx endpointDataEx (PostOutcome.resp 200 "ok")
          (PostOutcome.resp 500 "no")).1.initialized = true ∧
      (onEndpoint stStoredEx endpointDataEx (PostOutcome.resp 200 "ok")
          (PostOutcome.resp 500 "no")).2 = Effect.resolveConnect) ∧
    (exceptOk (sendInitializeRequest (PostOutcome.resp 200 "ok")
        (PostOutcome.resp 500 "no")).result = false →
      (onEndpoint stStoredEx endpointDataEx (PostOutcome.resp 200 "ok")
          (PostOutcome.resp 500 "no")).2 =
        Effect.rejectConnect (exceptErrMsg (sendInitializeRequest (PostOutcome.resp 200 "ok")
          (PostOutcome.resp 500 "no")).result) ∧
      (onEndpoint stStoredEx endpointDataEx (PostOutcome.resp 200 "ok")
          (PostOutcome.resp 500 "no")).1.eventSource = Option.none ∧
      (onEndpoint stStoredEx endpointDataEx (PostOutcome.resp 200 "ok")
          (PostOutcome.resp 500 "no")).1.initialized = false ∧
      (onEndpoint stStoredEx endpointDataEx (PostOutcome.resp 200 "ok")
          (PostOutcome.resp 500 "no")).1.capabilities = Option.none ∧
      (onEndpoint stStoredEx endpointDataEx (PostOutcome.resp 200 "ok")
          (PostOutcome.resp 500 "no")).1.serverInfo = Option.none ∧
      (onEndpoint stStoredEx endpointDataEx (PostOutcome.resp 200 "ok")
          (PostOutcome.resp 500 "no")).1.resources = [] ∧
      (onEndpoint stStoredEx endpointDataEx (PostOutcome.resp 200 "ok")
          (PostOutcome.resp 500 "no")).1.tools = [] ∧
      (onEndpoint stStoredEx endpointDataEx (PostOutcome.resp 200 "ok")
          (PostOutcome.resp 500 "no")).1.subscriptions = []) :=
  handshake_C6 stStoredEx endpointDataEx (PostOutcome.resp 200 "ok") (PostOutcome.resp 500 "no")

/-- C7: configured environment data is attached to the establishment
URL as a single `env` parameter holding the percent-encoded JSON
serialization of the map; a string value whose JSON parse fails is
treated as no environment data, and the parameter is omitted for the
empty map.  The map from "A" to "1" serializes to exactly
`%7B%22A%22%3A%221%22%7D`. -/
theorem env_serialization_C7 (cfg : Config) (sid : Option String)
    (parse : String → Option (List (String × String))) (s : String)
    (m : List (String × String))
    (hbase : getParam cfg.urlParams "env" = Option.none) :
    (parse s = Option.none →
      getParam (buildSSEParams { cfg with env := EnvVal.str s } sid parse) "env" =
        Option.none) ∧
    getParam (buildSSEParams { cfg with env := EnvVal.map [] } sid parse) "env" =
      Option.none ∧
    (0 < m.length →
      getParam (buildSSEParams { cfg with env := EnvVal.map m } sid parse) "env" =
        some (encodeURIComponent (jsonStringifyStrMap m))) ∧
    encodeURIComponent (jsonStringifyStrMap [("A", "1")]) = "%7B%22A%22%3A%221%22%7D" := by
  have hcmd : ∀ e : EnvVal,
      getParam (commandParams { cfg with env := e } cfg.urlParams) "env" = Option.none := by
    intro e
    rw [getParam_commandParams _ _ _ (by decide) (by decide) (by decide)]
    exact hbase
  refine ⟨?_, ?_, ?_, by decide⟩
  · intro hp
    rw [getParam_buildSSE_env]
    by_cases hs : s = ""
    · subst hs
      simp [envParams, resolveEnv, hcmd (EnvVal.str "")]
    · simp [envParams, resolveEnv, hs, hp, hcmd (EnvVal.str s)]
  · rw [getParam_buildSSE_env]
    simp [envParams, resolveEnv, hcmd (EnvVal.map [])]
  · intro hm
    rw [getParam_buildSSE_env]
    simp [envParams, resolveEnv, hm, getParam_setParam]

/-- Witness for C7: the baseline configuration with env map from "A"
to "1" carries the percent-encoded serialization; the empty map and a
failing parse omit the parameter. -/
theorem env_serialization_C7_witness :
    ((fun _ => Option.none : String → Option (List (String × String))) "bad json" =
        Option.none →
      getParam (buildSSEParams { cfgEx with env := EnvVal.str "bad json" } (some "abc123")
        (fun _ => Option.none)) "env" = Option.none) ∧
    getParam (buildSSEParams { cfgEx with env := EnvVal.map [] } (some "abc123")
      (fun _ => Option.none)) "env" = Option.none ∧
    (0 < ([("A", "1")] : List (String × String)).length →
      getParam (buildSSEParams { cfgEx with env := EnvVal.map [("A", "1")] } (some "abc123")
        (fun _ => Option.none)) "env" =
        some (encodeURIComponent (jsonStringifyStrMap [("A", "1")]))) ∧
    encodeURIComponent (jsonStringifyStrMap [("A", "1")]) = "%7B%22A%22%3A%221%22%7D" :=
  env_serialization_C7 cfgEx (some "abc123") (fun _ => Option.none) "bad json" [("A", "1")] rfl

/-- A transport error while the manager is not ready takes the
initial-connection-failure branch: full disconnect, rejection, no
retry. -/
theorem step_error_not_ready (st : ConnState) (h : st.initialized = false) :
    step st Event.eError = (disconnect st, Effect.rejectConnect "SSE connection failed") := by
  simp [step, onError, h]

/-- Counterexample for C3: the claim ties the teardown-without-retry
to the fifth consecutive error (the retry budget of 5), implying the
earlier errors each schedule a retry.  In the code, only the first
post-ready error schedules a retry; the second consecutive error
already finds the manager not ready, performs the full disconnect
(transport null, ready flag false, descriptors and inventories
cleared) and schedules nothing — with the reconnect counter at 1, not
5, so the max-attempts branch never fired. -/
theorem reconnect_budget_C3_counterexample :
    (runTraceE readyStateEx [Event.eError, Event.eError]).2 =
      [Effect.scheduleRetry 1000, Effect.rejectConnect "SSE connection failed"] ∧
    (runTraceE readyStateEx [Event.eError, Event.eError]).1.eventSource = Option.none ∧
    (runTraceE readyStateEx [Event.eError, Event.eError]).1.initialized = false ∧
    (runTraceE readyStateEx [Event.eError, Event.eError]).1.capabilities = Option.none ∧
    (runTraceE readyStateEx [Event.eError, Event.eError]).1.serverInfo = Option.none ∧
    (runTraceE readyStateEx [Event.eError, Event.eError]).1.resources = [] ∧
    (runTraceE readyStateEx [Event.eError, Event.eError]).1.tools = [] ∧
    (runTraceE readyStateEx [Event.eError, Event.eError]).1.subscriptions = [] ∧
    (runTraceE readyStateEx [Event.eError, Event.eError]).1.reconnectAttempts = 1 :=
  ⟨rfl, rfl, rfl, rfl, rfl, rfl, rfl, rfl, rfl⟩

/-- C3 amended: after a completed handshake, the first transport error
schedules exactly one retry; every further consecutive error (no
successful handshake in between) finds the manager not ready and
performs a full disconnect with no retry, so after five consecutive
errors — indeed already after two — the manager is fully torn down
and the fifth error schedules no retry. -/
theorem reconnect_budget_C3_amended (st : ConnState)
    (h : st.initialized = true) (hA : st.reconnectAttempts < st.maxReconnectAttempts) :
    (runTraceE st
      [Event.eError, Event.eError, Event.eError, Event.eError, Event.eError]).2 =
      [Effect.scheduleRetry st.reconnectDelay,
        Effect.rejectConnect "SSE connection failed",
        Effect.rejectConnect "SSE connection failed",
        Effect.rejectConnect "SSE connection failed",
        Effect.rejectConnect "SSE connection failed"] ∧
    (runTraceE st
      [Event.eError, Event.eError, Event.eError, Event.eError, Event.eError]).1 =
      disconnect { st with
        initialized := false
        eventSource := Option.none
        reconnectAttempts := st.reconnectAttempts + 1
        reconnectDelay := min (st.reconnectDelay * 2) 30000 } := by
  have h1 : step st Event.eError =
      ({ st with
          initialized := false
          eventSource := Option.none
          reconnectAttempts := st.reconnectAttempts + 1
          reconnectDelay := min (st.reconnectDelay * 2) 30000 },
        Effect.scheduleRetry st.reconnectDelay) := by
    simp [step, onError, h, hA]
  constructor <;>
    simp only [runTraceE, h1] <;>
    simp [step_error_not_ready, disconnect]

/-- Witness for the amended C3: the ready example state put through
five consecutive errors. -/
theorem reconnect_budget_C3_amended_witness :
    (runTraceE readyStateEx
      [Event.eError, Event.eError, Event.eError, Event.eError, Event.eError]).2 =
      [Effect.scheduleRetry readyStateEx.reconnectDelay,
        Effect.rejectConnect "SSE connection failed",
        Effect.rejectConnect "SSE connection failed",
        Effect.rejectConnect "SSE connection failed",
        Effect.rejectConnect "SSE connection failed"] ∧
    (runTraceE readyStateEx
      [Event.eError, Event.eError, Event.eError, Event.eError, Event.eError]).1 =
      disconnect { readyStateEx with
        initialized := false
        eventSource := Option.none
        reconnectAttempts := readyStateEx.reconnectAttempts + 1
        reconnectDelay := min (readyStateEx.reconnectDelay * 2) 30000 } :=
  reconnect_budget_C3_amended readyStateEx rfl (by decide)

/-- Counterexample for C9: a fully successful handshake — initialize
POST answered 200 with a capability/identity payload in the body,
initialized notification answered 200 — completes (the manager
becomes ready and the connect promise resolves), yet both descriptors
are still null: no code path records the server payloads. -/
theorem descriptors_C9_counterexample :
    (onEndpoint freshConnEx endpointDataEx
      (PostOutcome.resp 200
        "\x7b\"capabilities\":\x7b\x7d,\"serverInfo\":\x7b\"name\":\"srv\"\x7d\x7d")
      (PostOutcome.resp 200 "")).1.initialized = true ∧
    (onEndpoint freshConnEx endpointDataEx
      (PostOutcome.resp 200
        "\x7b\"capabilities\":\x7b\x7d,\"serverInfo\":\x7b\"name\":\"srv\"\x7d\x7d")
      (PostOutcome.resp 200 "")).2 = Effect.resolveConnect ∧
    (onEndpoint freshConnEx endpointDataEx
      (PostOutcome.resp 200
        "\x7b\"capabilities\":\x7b\x7d,\"serverInfo\":\x7b\"name\":\"srv\"\x7d\x7d")
      (PostOutcome.resp 200 "")).1.capabilities = Option.none ∧
    (onEndpoint freshConnEx endpointDataEx
      (PostOutcome.resp 200
        "\x7b\"capabilities\":\x7b\x7d,\"serverInfo\":\x7b\"name\":\"srv\"\x7d\x7d")
      (PostOutcome.resp 200 "")).1.serverInfo = Option.none :=
  ⟨rfl, rfl, rfl, rfl⟩

/-- No event handler ever assigns the capability or server-identity
descriptors. -/
theorem step_descriptors_none (st : ConnState) (e : Event)
    (h1 : st.capabilities = Option.none) (h2 : st.serverInfo = Option.none) :
    ((step st e).1).capabilities = Option.none ∧
    ((step st e).1).serverInfo = Option.none := by
  cases e with
  | eOpen => exact ⟨h1, h2⟩
  | eError =>
    simp only [step, onError]
    by_cases hb : st.initialized
    · by_cases hc : st.reconnectAttempts < st.maxReconnectAttempts <;>
        simp [hb, hc, disconnect, h1, h2]
    · simp [hb, disconnect]
  | eEndpoint d initO notifO =>
    simp only [step, onEndpoint]
    rcases d with ⟨u, sp⟩
    cases sp <;>
      rcases hr : (sendInitializeRequest initO notifO).result with m | _ <;>
        simp [hr, disconnect, h1, h2]
  | eMessage p => exact ⟨h1, h2⟩
  | eDisconnect => exact ⟨rfl, rfl⟩
  | eConnectStart hd tid => exact ⟨h1, h2⟩

/-- The descriptors stay null along any event sequence. -/
theorem runTrace_descriptors_none (st : ConnState) (es : List Event)
    (h1 : st.capabilities = Option.none) (h2 : st.serverInfo = Option.none) :
    (runTrace st es).capabilities = Option.none ∧
    (runTrace st es).serverInfo = Option.none := by
  induction es generalizing st with
  | nil => exact ⟨h1, h2⟩
  | cons e rest ih =>
    obtain ⟨g1, g2⟩ := step_descriptors_none st e h1 h2
    exact ih _ g1 g2

/-- C9 amended: the capability and server-identity descriptors are
never assigned: they are null at construction, stay null across every
event sequence (the handshake discards the initialize response
payload), and disconnect (re)sets them to null. -/
theorem descriptors_C9_amended (cfg : Config) (st : ConnState) (es : List Event)
    (h1 : st.capabilities = Option.none) (h2 : st.serverInfo = Option.none) :
    (initState cfg).capabilities = Option.none ∧
    (initState cfg).serverInfo = Option.none ∧
    (runTrace st es).capabilities = Option.none ∧
    (runTrace st es).serverInfo = Option.none ∧
    (disconnect st).capabilities = Option.none ∧
    (disconnect st).serverInfo = Option.none := by
  obtain ⟨g1, g2⟩ := runTrace_descriptors_none st es h1 h2
  exact ⟨rfl, rfl, g1, g2, rfl, rfl⟩

/-- Witness for the amended C9: a fresh manager through an open and a
successful handshake. -/
theorem descriptors_C9_amended_witness :
    (initState cfgEx).capabilities = Option.none ∧
    (initState cfgEx).serverInfo = Option.none ∧
    (runTrace freshConnEx
      [Event.eOpen,
        Event.eEndpoint endpointDataEx (PostOutcome.resp 200 "payload")
          (PostOutcome.resp 200 "")]).capabilities = Option.none ∧
    (runTrace freshConnEx
      [Event.eOpen,
        Event.eEndpoint endpointDataEx (PostOutcome.resp 200 "payload")
          (PostOutcome.resp 200 "")]).serverInfo = Option.none ∧
    (disconnect freshConnEx).capabilities = Option.none ∧
    (disconnect freshConnEx).serverInfo = Option.none :=
  descriptors_C9_amended cfgEx freshConnEx
    [Event.eOpen,
      Event.eEndpoint endpointDataEx (PostOutcome.resp 200 "payload")
        (PostOutcome.resp 200 "")] rfl rfl

end MCP
